import Mathlib

/-!
Shallow embedding of `src/test-vul/auth.c` (a small in-process authentication
and session subsystem) together with theorems settling the specification
claims about it.

Strings model C NUL-terminated byte strings; `strcmp(a, b) == 0` is modelled
by `a == b` (byte-for-byte equality).  The global array `User users[MAX_USERS]`
with its manual counter `user_count` is modelled as a `List User` holding the
first `user_count` records in insertion order.  Printf output is presentation
only; each function's observable outcome is modelled as an explicit result
value.
-/

namespace Auth

/-- C: `#define MAX_USERS 100` -/
def MAX_USERS : Nat := 100

/-- C: `#define ADMIN_PASSWORD "admin123"` (hardcoded credential). -/
def ADMIN_PASSWORD : String := "admin123"

/-- C: `struct { char username[32]; char password[32]; int is_admin; } User`.
The two `char[32]` fields hold NUL-terminated strings (at most 31 content
bytes without overflow); the embedding keeps the full string that the code
copies in, since the code itself never truncates. -/
structure User where
  username : String
  password : String
  is_admin : Int
deriving DecidableEq

/-- Outcome of `login` (the code signals it via printf). -/
inductive LoginResult where
  | adminGranted
  | userGranted (u : User)
  | denied
deriving DecidableEq

/-- The `for (int i = 0; i < user_count; i++)` scan inside `login`:
return success for the first stored user whose username and password both
compare equal (`strcmp == 0`) to the supplied ones. -/
def scanUsers : List User → String → String → LoginResult
  | [], _, _ => LoginResult.denied
  | usr :: rest, username, password =>
    if usr.username == username && usr.password == password then
      LoginResult.userGranted usr
    else
      scanUsers rest username password

/-- C: `void login(char *username, char *password)`.
The local `buffer`/`query` copies and the printf calls are diagnostics with
no effect on the outcome; the decision logic is the hardcoded admin check
followed by the linear scan of `users[0 .. user_count)`. -/
def login (users : List User) (username password : String) : LoginResult :=
  if username == "admin" && password == ADMIN_PASSWORD then
    LoginResult.adminGranted
  else
    scanUsers users username password

/-- Outcome of `register_user`: the code either prints "Max users reached"
and returns without touching the store, or appends at index `user_count`.
(The spec names the full-store failure `CapacityExceeded`.)  The code has no
input-validation outcome of any kind. -/
inductive RegResult where
  | maxUsersReached
  | registered (idx : Nat)
deriving DecidableEq

/-- C: `void register_user(char *username, char *password)`.
Checks only `user_count >= MAX_USERS`; otherwise `strcpy`s both strings
unchecked into `users[user_count]` (no length validation, plaintext
password), sets `is_admin = 0` and increments `user_count`.  Returns the
outcome together with the updated store. -/
def register_user (users : List User) (username password : String) :
    RegResult × List User :=
  if MAX_USERS ≤ users.length then
    (RegResult.maxUsersReached, users)
  else
    (RegResult.registered users.length,
     users ++ [{ username := username, password := password, is_admin := 0 }])

/-- Modelled from the spec: `CredentialStore.findByUsername(name)` (spec
section 4.1) is declared in the spec but has no counterpart in
`src/test-vul/auth.c` (the code only embeds the equivalent scan inside
`login`).  Per the spec it returns the first User in insertion order whose
username equals `name` byte-for-byte, or nothing. -/
def findByUsername (users : List User) (name : String) : Option User :=
  users.find? (fun u => u.username == name)

/-- One registration step, used to fold a whole sequence of registrations. -/
def regStep (users : List User) (cred : String × String) : List User :=
  (register_user users cred.1 cred.2).2

/-- Perform a sequence of registrations starting from the empty store. -/
def foldRegister (creds : List (String × String)) : List User :=
  creds.foldl regStep []

/-- A heap buffer as seen by `process_token`: either still alive with its
content, or already passed to `free`. -/
inductive Buf where
  | alive (content : String)
  | released
deriving DecidableEq

/-- Read a buffer.  Reading an `alive` buffer yields its content; reading a
`released` buffer is the C undefined behaviour (use after free), marked by
`none`.  The code has no `InvalidState` outcome: `none` is an undefined
access, not an error value. -/
def readBuf : Buf → Option String
  | Buf.alive s => some s
  | Buf.released => none

/-- Observable outcome of `process_token`: the state of `token_copy` when the
call returns, and the content the final `printf("Processing token: %s")`
read from it (`none` when that read hit a freed buffer). -/
structure ProcessResult where
  copyFinal : Buf
  printed : Option String
deriving DecidableEq

/-- C: `void process_token(char *token)`.
`strdup` makes a private copy; if `strlen(token_copy) > 10` the copy is
`free`d; the subsequent `printf` then reads `token_copy` in either case. -/
def process_token (token : String) : ProcessResult :=
  let tokenCopy : Buf := Buf.alive token
  let tokenCopy : Buf :=
    if 10 < token.length then Buf.released else tokenCopy
  { copyFinal := tokenCopy, printed := readBuf tokenCopy }

/-- C conversion of a signed value to `size_t` (64-bit): reduction mod 2^64.
Used when an `int` is passed where `size_t` is expected. -/
def to_size_t (n : Int) : Nat := (n % (2 ^ 64 : Int)).toNat

/-- The byte count `register_user`'s sibling `allocate_session` hands to
`malloc`: C computes `size * sizeof(char)` with `size` converted to
`size_t`, so a negative `int` wraps to a huge request. -/
def malloc_request (size : Int) : Nat := to_size_t size * 1

/-- The session buffer: the bytes `malloc` returned after the
`memset(session, 0, size)`. -/
structure Session where
  bytes : List Nat
deriving DecidableEq

/-- C: `void allocate_session(int size)`.
No validation of `size` whatsoever: the code calls
`malloc(size * sizeof(char))` directly.  `mallocOk` abstracts whether
`malloc` returns a non-NULL pointer (environment dependent); on NULL the
code prints "Allocation failed" (`none`), otherwise it zeroes the buffer
and reports success.  There is no `InvalidSize` outcome in the code. -/
def allocate_session (mallocOk : Bool) (size : Int) : Option Session :=
  if mallocOk then
    some { bytes := List.replicate (malloc_request size) 0 }
  else
    none

/-- State of the file at `filepath` at one instant, as the filesystem calls
observe it. -/
inductive FileState where
  | readable (content : String)
  | noPermission
  | absent
deriving DecidableEq

/-- C: `access(filepath, R_OK) == 0`. -/
def access_R_OK : FileState → Bool
  | FileState.readable _ => true
  | _ => false

/-- C: `fopen(filepath, "r")` followed by `fread` of up to 1024 bytes:
yields the content when the file is readable, NULL otherwise. -/
def fopen_read : FileState → Option String
  | FileState.readable c => some c
  | _ => none

/-- C: `int check_and_read_config(char *filepath)`.
The code probes with `access` first and only then opens; the two calls
observe the filesystem at different instants (`fsCheck` and then `fsUse`),
which is exactly the TOCTOU gap.  The bytes `fread` obtains go into a local
buffer that is discarded: the function returns only the `int` 1 or 0. -/
def check_and_read_config (fsCheck fsUse : FileState) : Int :=
  if access_R_OK fsCheck then
    match fopen_read fsUse with
    | some _ => 1
    | none => 0
  else
    0

/-! ## Helper lemmas -/

/-- The scan inside `login` returns exactly the first matching user of the
store (in insertion order), and `denied` when no user matches. -/
lemma scan_eq_find (users : List User) (u p : String) :
    scanUsers users u p =
      match users.find? (fun usr => usr.username == u && usr.password == p) with
      | some usr => LoginResult.userGranted usr
      | none => LoginResult.denied := by
  induction users with
  | nil => rfl
  | cons usr rest ih =>
    by_cases h : (usr.username == u && usr.password == p) = true
    · simp [scanUsers, List.find?, h]
    · simp only [Bool.not_eq_true] at h
      simp [scanUsers, List.find?, h, ih]

/-- `register_user` on a full store fails and leaves the store unchanged. -/
lemma register_user_full (users : List User) (u p : String)
    (h : MAX_USERS ≤ users.length) :
    register_user users u p = (RegResult.maxUsersReached, users) := by
  simp [register_user, h]

/-- `register_user` on a non-full store appends the new record at the end
and reports its index. -/
lemma register_user_ok (users : List User) (u p : String)
    (h : users.length < MAX_USERS) :
    register_user users u p =
      (RegResult.registered users.length,
       users ++ [{ username := u, password := p, is_admin := 0 }]) := by
  simp [register_user, Nat.not_le.mpr h]

/-- Folding registrations grows the store one record per step, capped at
`MAX_USERS`. -/
lemma foldl_regStep_length (creds : List (String × String)) :
    ∀ users : List User, users.length ≤ MAX_USERS →
      (creds.foldl regStep users).length =
        min (users.length + creds.length) MAX_USERS := by
  induction creds with
  | nil =>
    intro users h
    simp only [List.foldl_nil, List.length_nil, Nat.add_zero]
    omega
  | cons c rest ih =>
    intro users h
    simp only [List.foldl_cons, List.length_cons]
    by_cases hlt : users.length < MAX_USERS
    · have hstep : (regStep users c).length = users.length + 1 := by
        simp [regStep, register_user_ok users c.1 c.2 hlt]
      rw [ih (regStep users c) (by omega), hstep]
      omega
    · have hstep : regStep users c = users := by
        simp [regStep, register_user_full users c.1 c.2 (by omega)]
      rw [hstep, ih users h]
      omega

/-- Length of the store obtained by registering a whole sequence starting
from the empty store. -/
lemma foldRegister_length (creds : List (String × String)) :
    (foldRegister creds).length = min creds.length MAX_USERS := by
  have h := foldl_regStep_length creds [] (by simp [MAX_USERS])
  simpa [foldRegister] using h

/-! ## Claim theorems -/

/-- C1: for every store state, including the empty store, `login` with
username "admin" and the fixed admin secret returns `adminGranted`; the
check precedes any store lookup, so the result equals the result on the
empty store, independent of store contents. -/
theorem login_admin_precedence (users : List User) (p : String)
    (h : p = ADMIN_PASSWORD) :
    login users "admin" p = LoginResult.adminGranted ∧
    login users "admin" p = login [] "admin" p := by
  subst h
  constructor <;> simp [login]

/-- Witness for C1: even with a store holding a conflicting "admin" record,
the hardcoded check wins. -/
theorem login_admin_precedence_witness :
    "admin123" = ADMIN_PASSWORD ∧
    login [{ username := "admin", password := "other", is_admin := 0 }]
        "admin" "admin123" = LoginResult.adminGranted :=
  ⟨rfl,
   (login_admin_precedence
     [{ username := "admin", password := "other", is_admin := 0 }]
     "admin123" rfl).1⟩

/-- C2: whenever the hardcoded admin check does not fire, `login` scans the
store in insertion order and grants the first user whose username and
password both compare equal byte-for-byte; with no such user it denies. -/
theorem login_first_match (users : List User) (u p : String)
    (h : ¬(u = "admin" ∧ p = ADMIN_PASSWORD)) :
    login users u p =
      match users.find? (fun usr => usr.username == u && usr.password == p) with
      | some usr => LoginResult.userGranted usr
      | none => LoginResult.denied := by
  have hb : ¬((u == "admin" && p == ADMIN_PASSWORD) = true) := by
    simpa using h
  rw [login, if_neg hb]
  exact scan_eq_find users u p

/-- Witness for C2: a non-admin credential grants exactly the stored user
that matches both fields. -/
theorem login_first_match_witness :
    ¬("alice" = "admin" ∧ "pw2" = ADMIN_PASSWORD) ∧
    login [{ username := "bob", password := "pw1", is_admin := 0 },
           { username := "alice", password := "pw2", is_admin := 0 }]
        "alice" "pw2" =
      LoginResult.userGranted
        { username := "alice", password := "pw2", is_admin := 0 } := by
  refine ⟨by decide, ?_⟩
  rw [login_first_match _ _ _ (by decide)]
  decide

/-- C3: with capacity `MAX_USERS = 100`, every one of the first 100
registrations from the empty store succeeds with the next index, the 101st
fails with the capacity error, and the failed append leaves the store (its
length and every record) unchanged at exactly 100. -/
theorem register_capacity (creds : List (String × String)) (u p : String)
    (h : creds.length = MAX_USERS) :
    (∀ k, (hk : k < creds.length) →
      (register_user (foldRegister (creds.take k))
        (creds.get ⟨k, hk⟩).1 (creds.get ⟨k, hk⟩).2).1 =
        RegResult.registered k) ∧
    (register_user (foldRegister creds) u p).1 = RegResult.maxUsersReached ∧
    (register_user (foldRegister creds) u p).2 = foldRegister creds ∧
    (foldRegister creds).length = MAX_USERS := by
  have hfull : (foldRegister creds).length = MAX_USERS := by
    rw [foldRegister_length, h]
    omega
  have hreg := register_user_full (foldRegister creds) u p (by omega)
  refine ⟨?_, by rw [hreg], by rw [hreg], hfull⟩
  intro k hk
  have htake : (foldRegister (creds.take k)).length = k := by
    rw [foldRegister_length, List.length_take, h]
    omega
  rw [register_user_ok _ _ _ (by omega), htake]

/-- Witness for C3: a concrete sequence of 100 registrations fills the
store; the next attempt fails and leaves the store untouched. -/
theorem register_capacity_witness :
    (List.replicate 100 ("u", "p")).length = MAX_USERS ∧
    (register_user (foldRegister (List.replicate 100 ("u", "p"))) "x" "y").1 =
      RegResult.maxUsersReached ∧
    (register_user (foldRegister (List.replicate 100 ("u", "p"))) "x" "y").2 =
      foldRegister (List.replicate 100 ("u", "p")) := by
  have h := register_capacity (List.replicate 100 ("u", "p")) "x" "y" (by simp [MAX_USERS])
  exact ⟨by simp [MAX_USERS], h.2.1, h.2.2.1⟩

/-- C9: frame property of a successful registration: the index reported is
the old length, the length grows by exactly one, every previously stored
record is unchanged, and the new record sits at the old length with
`is_admin = 0`. -/
theorem register_frame (users : List User) (u p : String) (n : Nat)
    (h : (register_user users u p).1 = RegResult.registered n) :
    n = users.length ∧
    (register_user users u p).2.length = n + 1 ∧
    (∀ i, i < users.length → (register_user users u p).2[i]? = users[i]?) ∧
    (register_user users u p).2[n]? =
      some { username := u, password := p, is_admin := 0 } := by
  by_cases hlt : users.length < MAX_USERS
  · have heq := register_user_ok users u p hlt
    have hn : n = users.length := by
      rw [heq] at h
      simpa using h.symm
    subst hn
    rw [heq]
    refine ⟨rfl, by simp, ?_, ?_⟩
    · intro i hi
      simp [List.getElem?_append, hi]
    · simp [List.getElem?_append]
  · rw [register_user_full users u p (by omega)] at h
    simp at h

/-- Witness for C9: registering onto a one-record store preserves that
record, appends the new one at index 1, and reports index 1. -/
theorem register_frame_witness :
    (register_user [{ username := "bob", password := "pw", is_admin := 0 }]
        "alice" "s").1 = RegResult.registered 1 ∧
    (register_user [{ username := "bob", password := "pw", is_admin := 0 }]
        "alice" "s").2.length = 1 + 1 ∧
    (register_user [{ username := "bob", password := "pw", is_admin := 0 }]
        "alice" "s").2[0]? =
      ([{ username := "bob", password := "pw", is_admin := 0 }] : List User)[0]? ∧
    (register_user [{ username := "bob", password := "pw", is_admin := 0 }]
        "alice" "s").2[1]? =
      some { username := "alice", password := "s", is_admin := 0 } := by
  have h := register_frame
    [{ username := "bob", password := "pw", is_admin := 0 }] "alice" "s" 1 (by decide)
  exact ⟨by decide, h.2.1, h.2.2.1 0 (by decide), h.2.2.2⟩

/-- C10: for a token of length at most 10 the private copy made by
`process_token` is never released (it is still alive when the call
returns, and the code has no later release path for it), and the content
the final read produces is exactly the token's content. -/
theorem process_token_short_keeps_copy (token : String)
    (h : token.length ≤ 10) :
    process_token token =
      { copyFinal := Buf.alive token, printed := some token } := by
  simp [process_token, readBuf, Nat.not_lt.mpr h]

/-- Witness for C10: a 3-character token is kept alive and printed as-is. -/
theorem process_token_short_keeps_copy_witness :
    ("abc" : String).length ≤ 10 ∧
    process_token "abc" = { copyFinal := Buf.alive "abc", printed := some "abc" } :=
  ⟨by decide, process_token_short_keeps_copy "abc" (by decide)⟩

/-- C4 (code bug): the claim says an over-long (more than 31 characters)
username is rejected with `InvalidInput`; the code performs no length
validation at all — a 32-character username is accepted, the registration
succeeds, and the stored record carries the full 32-character string (in C,
`strcpy` writes its 33 bytes, NUL included, past the 32-byte `username`
field).  `RegResult` has no `InvalidInput` outcome anywhere. -/
theorem register_no_length_validation :
    ("aaaaaaaaaaaaaaaaaaaaaaaaaaaaaaaa" : String).length = 32 ∧
    register_user [] "aaaaaaaaaaaaaaaaaaaaaaaaaaaaaaaa" "p" =
      (RegResult.registered 0,
       [{ username := "aaaaaaaaaaaaaaaaaaaaaaaaaaaaaaaa", password := "p",
          is_admin := 0 }]) := by
  decide

/-- C5 (code bug): the claim says the token content is read to completion
strictly before any release, with reads after release failing as
`InvalidState`; for a token of length 11 the code frees `token_copy` first
and then hands the freed buffer to `printf` — the final read happens on the
released buffer (`printed = none` marks the undefined access; no
`InvalidState` result exists in the code). -/
theorem process_token_use_after_release :
    ("abcdefghijk" : String).length = 11 ∧
    process_token "abcdefghijk" =
      { copyFinal := Buf.released, printed := none } := by
  decide

/-- C6 (code bug): the claim says sizes at most 0 (and wrapping products)
fail with `InvalidSize`; the code validates nothing: size 0 yields a
successful empty allocation when `malloc` cooperates, and size -1 wraps to
a 2^64 - 1 byte `malloc` request instead of being rejected.  The only
outcomes are success or a NULL from `malloc`; `InvalidSize` does not
exist. -/
theorem allocate_session_no_size_validation :
    allocate_session true 0 = some { bytes := [] } ∧
    malloc_request (-1) = 2 ^ 64 - 1 ∧
    allocate_session false (-1) = none := by
  refine ⟨by decide, by decide, rfl⟩

/-- C7 (code bug): the claim says a single open-and-read attempt classifies
its own outcome (content / `Denied` / `NotFound`); the code instead relies
on a separate prior `access` probe: a file readable at probe time but gone
at open time yields 0, a file absent at probe time is never even opened
(also 0) even when readable at open time, and a permission failure is
indistinguishable from a missing file — no content, `Denied` or `NotFound`
is ever returned. -/
theorem check_and_read_toctou :
    check_and_read_config (FileState.readable "cfg") FileState.absent = 0 ∧
    check_and_read_config FileState.absent (FileState.readable "cfg") = 0 ∧
    check_and_read_config FileState.noPermission FileState.noPermission =
      check_and_read_config FileState.absent FileState.absent := by
  decide

/-- C8 (code bug): the claim says the stored password is a hashed
verifiable-secret representation, never the retrievable plaintext; the code
stores the submitted password verbatim: after registering, `findByUsername`
returns a record whose username and `is_admin = 0` do match the claim but
whose password field is exactly the plaintext that was submitted. -/
theorem register_stores_plaintext :
    (register_user [] "alice" "hunter2").1 = RegResult.registered 0 ∧
    findByUsername (register_user [] "alice" "hunter2").2 "alice" =
      some { username := "alice", password := "hunter2", is_admin := 0 } := by
  decide

end Auth
